import Mathlib

/-!
Shallow embedding of the sort_bot Evaluation Engine
(`src/app/core/bot_evaluator.py`) and the harness it generates, together
with theorems settling the specification claims about it.

The Python string operations used by the engine (`str.strip`,
`str.split(sep)`, `str.split(sep, 2)`, `str.startswith`, builtin `float`)
are modelled over `List Char`; durations are modelled as `ℚ`.
-/

deriving instance DecidableEq for Except

namespace SortBot

/-- The whitespace characters stripped by Python `str.strip()`. -/
def isPySpace (c : Char) : Bool :=
  c = ' ' || c = '\t' || c = '\n' || c = '\r' || c = '\x0b' || c = '\x0c'

/-- Python `s.strip()`: drop whitespace from both ends. -/
def pyStrip (cs : List Char) : List Char :=
  ((cs.dropWhile isPySpace).reverse.dropWhile isPySpace).reverse

/-- Split at the first occurrence of `sep`: `none` when `sep` is absent,
otherwise the part before and the part after it. -/
def splitFirst (sep : Char) : List Char → Option (List Char × List Char)
  | [] => none
  | c :: cs =>
    if c = sep then some ([], cs)
    else
      match splitFirst sep cs with
      | none => none
      | some (a, b) => some (c :: a, b)

/-- Helper for `pySplitAll`, accumulating the current field reversed. -/
def pySplitAllAux : List Char → List Char → List (List Char)
  | [], acc => [acc.reverse]
  | c :: cs, acc =>
    if c = ',' then acc.reverse :: pySplitAllAux cs []
    else pySplitAllAux cs (c :: acc)

/-- Python `s.split(",")` (unlimited maxsplit). -/
def pySplitAll (cs : List Char) : List (List Char) :=
  pySplitAllAux cs []

/-- Python `s.split(",", 2)`: at most the first two commas are separators,
the third field keeps any further commas. -/
def pySplit2 (cs : List Char) : List (List Char) :=
  match splitFirst ',' cs with
  | none => [cs]
  | some (a, rest) =>
    match splitFirst ',' rest with
    | none => [a, rest]
    | some (b, rest2) => [a, b, rest2]

/-- Helper for `takeDigits`: consume leading decimal digits, returning the
accumulated value, the digit count, and the unconsumed remainder. -/
def takeDigitsAux : List Char → Nat → Nat → Nat × Nat × List Char
  | [], v, n => (v, n, [])
  | c :: cs, v, n =>
    if c.isDigit then takeDigitsAux cs (v * 10 + (c.toNat - 48)) (n + 1)
    else (v, n, c :: cs)

/-- Consume leading decimal digits of a character list. -/
def takeDigits (cs : List Char) : Nat × Nat × List Char :=
  takeDigitsAux cs 0 0

/-- Apply an optional leading minus sign to a parsed magnitude. -/
def intSign (neg : Bool) (n : Nat) : Int :=
  if neg then -(n : Int) else n

/-- Model of Python builtin `float(s)` restricted to plain decimal
notation: surrounding whitespace, an optional sign, digits with an
optional fractional part. Exponent and inf/nan spellings are not
modelled; `none` models Python raising `ValueError`. -/
def pyFloat? (cs : List Char) : Option ℚ :=
  let s := pyStrip cs
  let signSplit : Bool × List Char :=
    match s with
    | '-' :: r => (true, r)
    | '+' :: r => (false, r)
    | _ => (false, s)
  let neg := signSplit.1
  let s1 := signSplit.2
  let ipart := takeDigits s1
  let ip := ipart.1
  let ic := ipart.2.1
  let r1 := ipart.2.2
  match r1 with
  | [] => if ic = 0 then none else some (mkRat (intSign neg ip) 1)
  | '.' :: r2 =>
    let fpart := takeDigits r2
    let fp := fpart.1
    let fc := fpart.2.1
    let r3 := fpart.2.2
    if r3.isEmpty && decide (0 < ic + fc) then
      some (mkRat (intSign neg (ip * 10 ^ fc + fp)) (10 ^ fc))
    else none
  | _ => none

/-- The message of the `ValueError` Python raises when `float` cannot
parse its argument. -/
def floatError (p : List Char) : String :=
  "could not convert string to float: \x27" ++ String.mk p ++ "\x27"

/-- One row of the `bot_results` table as the engine fills it
(`BotResult` in `db_models.py`); `execution_time` and `error_message`
are nullable and default to absent. -/
structure BotResult where
  submission_id : String
  test_case_id : Nat
  execution_time : Option ℚ := none
  success : String := "unknown"
  error_message : Option String := none
deriving DecidableEq

/-- What the Sandboxed Runner observes for one test case: normal child
completion with captured stdout/stderr and the wall-clock elapsed time
measured around the child, a timeout (whatever the pipes held is
discarded), or an exception raised around the run (temp-file creation or
process spawn failure), carrying its description. -/
inductive RunObs where
  | completed (stdout stderr : String) (elapsed : ℚ)
  | timedOut (stdout stderr : String)
  | fault (msg : String)
deriving DecidableEq

/-- Model of `BotEvaluator._run_single_test`: build the harness, run it, and parse
the verdict.  `Except.error` models an exception propagating out of the
method (in the source: `float` raising on a malformed duration field, or
a fault before a verdict was obtained). -/
def runSingleTest (timeout_seconds : ℚ) (submission_id : String)
    (test_case_id : Nat) : RunObs → Except String BotResult
  | .fault msg => .error msg
  | .timedOut _ _ =>
    .ok { submission_id, test_case_id,
          execution_time := some timeout_seconds,
          success := "timeout",
          error_message := some "Execution timed out" }
  | .completed stdout stderr elapsed =>
    let output := pyStrip stdout.data
    if ("PASS".data).isPrefixOf output then
      match pySplitAll output with
      | _ :: p1 :: _ =>
        match pyFloat? p1 with
        | some q => .ok { submission_id, test_case_id,
                          execution_time := some q, success := "pass" }
        | none => .error (floatError p1)
      | _ => .ok { submission_id, test_case_id,
                   execution_time := some elapsed, success := "pass" }
    else if ("FAIL".data).isPrefixOf output then
      match pySplit2 output with
      | [_, p1, p2] =>
        match pyFloat? p1 with
        | some q => .ok { submission_id, test_case_id,
                          execution_time := some q, success := "fail",
                          error_message := some (String.mk p2) }
        | none => .error (floatError p1)
      | [_, p1] =>
        match pyFloat? p1 with
        | some q => .ok { submission_id, test_case_id,
                          execution_time := some q, success := "fail",
                          error_message := some "Test failed" }
        | none => .error (floatError p1)
      | _ => .ok { submission_id, test_case_id,
                   execution_time := some elapsed, success := "fail",
                   error_message := some "Test failed" }
    else
      match pySplit2 output with
      | [_, p1, p2] =>
        match pyFloat? p1 with
        | some q => .ok { submission_id, test_case_id,
                          execution_time := some q, success := "error",
                          error_message := some (String.mk p2) }
        | none => .error (floatError p1)
      | [_, p1] =>
        match pyFloat? p1 with
        | some q => .ok { submission_id, test_case_id,
                          execution_time := some q, success := "error",
                          error_message := some stderr }
        | none => .error (floatError p1)
      | _ => .ok { submission_id, test_case_id,
                   execution_time := some elapsed, success := "error",
                   error_message := some stderr }

/-- The result record `evaluate_bot` creates when `_run_single_test`
raises for one test case: success `"error"`, the exception description as
message, and no execution time (the column stays NULL). -/
def caughtResult (submission_id : String) (test_case_id : Nat)
    (e : String) : BotResult :=
  { submission_id, test_case_id, success := "error",
    error_message := some e }

/-- The `try`/`except` around one test case inside `evaluate_bot`. -/
def runSingleTestCaught (timeout_seconds : ℚ) (submission_id : String)
    (test_case_id : Nat) (obs : RunObs) : BotResult :=
  match runSingleTest timeout_seconds submission_id test_case_id obs with
  | .ok r => r
  | .error e => caughtResult submission_id test_case_id e

/-- One test case of a submission paired with what the runner observes
when the harness for it is executed. -/
structure TestRun where
  test_case_id : Nat
  obs : RunObs
deriving DecidableEq

/-- The submission-level output of `evaluate_bot`: the per-test results,
the total score written to the submission row, and its final status. -/
structure SubmissionOutcome where
  results : List BotResult
  total_score : ℚ
  status : String
deriving DecidableEq

/-- Model of `BotEvaluator.evaluate_bot`: one result per test case (faults caught
per test case), then the total score as the average execution time over
results with success `"pass"` and a non-NULL execution time, or `0` when
there are none, and status `"completed"`. -/
def evaluate_bot (timeout_seconds : ℚ) (submission_id : String)
    (tests : List TestRun) : SubmissionOutcome :=
  let results := tests.map fun t =>
    runSingleTestCaught timeout_seconds submission_id t.test_case_id t.obs
  let successful_results := results.filter fun r =>
    r.success == "pass" && r.execution_time.isSome
  let total_score : ℚ :=
    if successful_results.isEmpty then 0
    else (successful_results.map fun r => r.execution_time.getD 0).sum /
      successful_results.length
  { results, total_score, status := "completed" }

/-- One binding of the generated harness module namespace (`globals()`),
in declaration order.  `isFunction` is `inspect.isfunction` of the bound
value; `isCallable` says whether calling the value succeeds at all (a
non-callable raises `TypeError`); `typeName` is the Python type name used
in that `TypeError` message; `fromImport` marks bindings brought in by
an import statement rather than written by the candidate — the
discovery code in the harness cannot tell them apart. -/
structure Binding where
  name : String
  isFunction : Bool
  isCallable : Bool
  typeName : String
  fromImport : Bool
deriving DecidableEq

/-- Behaviour of invoking one callable binding on (a copy of) the test
input: it returns a value equal to the expected output, returns some
other value, or raises with the given message. -/
inductive CallBehavior where
  | returnsExpected
  | returnsOther
  | raises (msg : String)
deriving DecidableEq

/-- What the harness body decides to call. -/
inductive EntryChoice where
  | invoke (b : Binding)
  | noFunction
deriving DecidableEq

/-- Entry-point discovery in the generated harness: if the name
`sort_array` is in `globals()`, call its value; otherwise take the
functions whose names do not start with an underscore, in declaration
order, and call the first; with none, raise
`Exception("No sorting function found")`. -/
def selectEntry (g : List Binding) : EntryChoice :=
  match g.find? (fun b => b.name == "sort_array") with
  | some b => .invoke b
  | none =>
    match g.filter (fun b => b.isFunction && !("_".data).isPrefixOf b.name.data) with
    | f :: _ => .invoke f
    | [] => .noFunction

/-- The single verdict line the harness prints, by kind. -/
inductive Verdict where
  | passV (t : ℚ)
  | failV (t : ℚ) (msg : String)
  | errorV (t : ℚ) (msg : String)
deriving DecidableEq

/-- The `TypeError` message Python produces on calling a non-callable. -/
def notCallableMsg (typeName : String) : String :=
  "\x27" ++ typeName ++ "\x27 object is not callable"

/-- The verdict printed by the generated harness, given the module
namespace, the behaviour of each binding when invoked, and the measured
elapsed time `t`: discovery failure and a raising candidate both print an
ERROR line; a returned value is compared to the expected output by value
equality, printing PASS or `FAIL,…,Result mismatch`. -/
def harnessVerdict (g : List Binding) (behave : Binding → CallBehavior)
    (t : ℚ) : Verdict :=
  match selectEntry g with
  | .noFunction => .errorV t "No sorting function found"
  | .invoke b =>
    if !b.isCallable then .errorV t (notCallableMsg b.typeName)
    else
      match behave b with
      | .returnsExpected => .passV t
      | .returnsOther => .failV t "Result mismatch"
      | .raises msg => .errorV t msg

end SortBot

set_option maxRecDepth 4000

namespace SortBot

/-- C1: for every evaluation request, `evaluate_bot` produces exactly one
result per supplied test case, and an unexpected exception raised while
evaluating one test case is caught and turned into an error result
carrying the exception description (with no execution time recorded), in
that test case's position, leaving every other test case's result in
place. -/
theorem evaluate_bot_outcome_per_test (timeout_seconds : ℚ) (sid : String)
    (tests : List TestRun) :
    (evaluate_bot timeout_seconds sid tests).results.length = tests.length ∧
    ∀ (i tid : Nat) (msg : String),
      tests[i]? = some ⟨tid, RunObs.fault msg⟩ →
      (evaluate_bot timeout_seconds sid tests).results[i]? =
        some ⟨sid, tid, none, "error", some msg⟩ := by
  constructor
  · simp [evaluate_bot]
  · intro i tid msg h
    simp [evaluate_bot, List.getElem?_map, h, runSingleTestCaught,
      runSingleTest, caughtResult]

theorem evaluate_bot_outcome_per_test_witness :
    (evaluate_bot 30 "s" [⟨7, RunObs.fault "boom"⟩]).results[0]? =
      some ⟨"s", 7, none, "error", some "boom"⟩ :=
  (evaluate_bot_outcome_per_test 30 "s" [⟨7, RunObs.fault "boom"⟩]).2
    0 7 "boom" (by decide)

/-- Finding: `List.find?` returns the first element satisfying the predicate. -/
theorem find?_append_first {α} (p : α → Bool) (pre : List α) (b : α)
    (post : List α) (hpre : ∀ x ∈ pre, p x = false) (hb : p b = true) :
    (pre ++ b :: post).find? p = some b := by
  induction pre with
  | nil => simp [List.find?, hb]
  | cons a l ih =>
    have ha := hpre a (by simp)
    simp only [List.cons_append, List.find?, ha]
    exact ih fun x hx => hpre x (by simp [hx])

/-- Filtering: `List.filter` keeps the first element satisfying the predicate in front
when nothing before it satisfies it. -/
theorem filter_append_first {α} (p : α → Bool) (pre : List α) (b : α)
    (post : List α) (hpre : ∀ x ∈ pre, p x = false) (hb : p b = true) :
    (pre ++ b :: post).filter p = b :: post.filter p := by
  induction pre with
  | nil => simp [List.filter, hb]
  | cons a l ih =>
    have ha := hpre a (by simp)
    simp only [List.cons_append, List.filter, ha]
    exact ih fun x hx => hpre x (by simp [hx])

/-- C3: whenever the runner reports a timeout, whatever the pipes held,
the outcome is a timeout result whose duration is the configured timeout
value and whose message is exactly "Execution timed out". -/
theorem runSingleTest_timeout_outcome (timeout_seconds : ℚ) (sid : String)
    (tid : Nat) (stdout stderr : String) :
    runSingleTest timeout_seconds sid tid (RunObs.timedOut stdout stderr) =
      .ok ⟨sid, tid, some timeout_seconds, "timeout",
           some "Execution timed out"⟩ := rfl

/-- C5 counterexample: a candidate whose namespace binds `sort_array` to
the non-callable `5` defines no callable at all, yet the harness run
yields the TypeError message for calling an `int`, not the message
"No sorting function found" the claim requires for that case; and a
candidate defining only a callable class (a callable that is not a
function) does define a callable, yet the harness does not invoke it and
reports "No sorting function found" instead. -/
theorem entry_point_no_callable_cex :
    (([⟨"sort_array", false, false, "int", false⟩] : List Binding).all
        fun b => !b.isCallable) = true ∧
    harnessVerdict [⟨"sort_array", false, false, "int", false⟩]
        (fun _ => CallBehavior.returnsExpected) 1 ≠
      Verdict.errorV 1 "No sorting function found" ∧
    harnessVerdict [⟨"sort_array", false, false, "int", false⟩]
        (fun _ => CallBehavior.returnsExpected) 1 =
      Verdict.errorV 1 (notCallableMsg "int") ∧
    (([⟨"Sorter", false, true, "type", false⟩] : List Binding).any
        fun b => b.isCallable) = true ∧
    harnessVerdict [⟨"Sorter", false, true, "type", false⟩]
        (fun _ => CallBehavior.returnsExpected) 1 =
      Verdict.errorV 1 "No sorting function found" :=
  ⟨by decide, by decide, by decide, by decide, by decide⟩

/-- C5 amended: if the name `sort_array` is bound in the harness
namespace, its (first) binding is the one invoked; otherwise the first
non-underscore-prefixed function, in declaration order, is invoked; and
when `sort_array` is unbound and no such function exists, the harness
prints an ERROR verdict with message "No sorting function found". -/
theorem entry_point_discovery (g : List Binding)
    (behave : Binding → CallBehavior) (t : ℚ) :
    (∀ pre b post, g = pre ++ b :: post → b.name = "sort_array" →
        (∀ x ∈ pre, x.name ≠ "sort_array") →
        selectEntry g = EntryChoice.invoke b) ∧
    (∀ pre f post, g = pre ++ f :: post →
        (∀ x ∈ g, x.name ≠ "sort_array") →
        f.isFunction = true → ("_".data).isPrefixOf f.name.data = false →
        (∀ x ∈ pre, (x.isFunction && !("_".data).isPrefixOf x.name.data) = false) →
        selectEntry g = EntryChoice.invoke f) ∧
    ((∀ x ∈ g, x.name ≠ "sort_array") →
        (∀ x ∈ g, (x.isFunction && !("_".data).isPrefixOf x.name.data) = false) →
        harnessVerdict g behave t =
          Verdict.errorV t "No sorting function found") := by
  refine ⟨?_, ?_, ?_⟩
  · intro pre b post hg hname hpre
    have hfind : g.find? (fun x => x.name == "sort_array") = some b := by
      subst hg
      exact find?_append_first _ _ _ _
        (fun x hx => by simpa using hpre x hx) (by simp [hname])
    simp [selectEntry, hfind]
  · intro pre f post hg hns hf hpriv hpre
    have hfind : g.find? (fun x => x.name == "sort_array") = none := by
      rw [List.find?_eq_none]
      intro x hx
      simpa using hns x hx
    have hfilt :
        g.filter (fun x => x.isFunction && !("_".data).isPrefixOf x.name.data) =
          f :: post.filter (fun x => x.isFunction && !("_".data).isPrefixOf x.name.data) := by
      subst hg
      exact filter_append_first _ _ _ _ hpre (by simp [hf, hpriv])
    simp [selectEntry, hfind, hfilt]
  · intro hns hnf
    have hfind : g.find? (fun x => x.name == "sort_array") = none := by
      rw [List.find?_eq_none]
      intro x hx
      simpa using hns x hx
    have hfilt :
        g.filter (fun x => x.isFunction && !("_".data).isPrefixOf x.name.data) = [] := by
      rw [List.filter_eq_nil_iff]
      intro x hx
      simp [hnf x hx]
    simp [harnessVerdict, selectEntry, hfind, hfilt]

theorem entry_point_discovery_witness :
    selectEntry
        [⟨"helper", true, true, "function", false⟩,
         ⟨"sort_array", true, true, "function", false⟩] =
      EntryChoice.invoke ⟨"sort_array", true, true, "function", false⟩ ∧
    selectEntry
        [⟨"_hidden", true, true, "function", false⟩,
         ⟨"my_sort", true, true, "function", false⟩] =
      EntryChoice.invoke ⟨"my_sort", true, true, "function", false⟩ ∧
    harnessVerdict [⟨"x", false, false, "int", false⟩]
        (fun _ => CallBehavior.returnsExpected) 2 =
      Verdict.errorV 2 "No sorting function found" :=
  ⟨(entry_point_discovery
      [⟨"helper", true, true, "function", false⟩,
       ⟨"sort_array", true, true, "function", false⟩]
      (fun _ => CallBehavior.returnsExpected) 2).1
      [⟨"helper", true, true, "function", false⟩] _ [] rfl rfl
      (by decide),
   (entry_point_discovery
      [⟨"_hidden", true, true, "function", false⟩,
       ⟨"my_sort", true, true, "function", false⟩]
      (fun _ => CallBehavior.returnsExpected) 2).2.1
      [⟨"_hidden", true, true, "function", false⟩] _ [] rfl
      (by decide) rfl rfl (by decide),
   (entry_point_discovery [⟨"x", false, false, "int", false⟩]
      (fun _ => CallBehavior.returnsExpected) 2).2.2
      (by decide) (by decide)⟩

/-- C9: when the candidate binds the name `sort_array` to a non-callable
value, the harness still selects that binding — the check is name
membership in `globals()`, not callability — so the run prints an ERROR
verdict with the TypeError message instead of falling back to any other
callable the candidate defined. -/
theorem sort_array_membership_not_callability (g pre post : List Binding)
    (b : Binding) (behave : Binding → CallBehavior) (t : ℚ)
    (hg : g = pre ++ b :: post)
    (hname : b.name = "sort_array")
    (hpre : ∀ x ∈ pre, x.name ≠ "sort_array")
    (hnc : b.isCallable = false) :
    selectEntry g = EntryChoice.invoke b ∧
    harnessVerdict g behave t =
      Verdict.errorV t (notCallableMsg b.typeName) := by
  have hfind : g.find? (fun x => x.name == "sort_array") = some b := by
    subst hg
    exact find?_append_first _ _ _ _
      (fun x hx => by simpa using hpre x hx) (by simp [hname])
  constructor
  · simp [selectEntry, hfind]
  · simp [harnessVerdict, selectEntry, hfind, hnc]

theorem sort_array_membership_not_callability_witness :
    harnessVerdict
        [⟨"sort_array", false, false, "int", false⟩,
         ⟨"my_sort", true, true, "function", false⟩]
        (fun _ => CallBehavior.returnsExpected) 1 =
      Verdict.errorV 1 (notCallableMsg "int") :=
  (sort_array_membership_not_callability
      [⟨"sort_array", false, false, "int", false⟩,
       ⟨"my_sort", true, true, "function", false⟩]
      [] [⟨"my_sort", true, true, "function", false⟩]
      ⟨"sort_array", false, false, "int", false⟩
      (fun _ => CallBehavior.returnsExpected) 1
      rfl rfl (by decide) rfl).2

/-- C10: the fallback search ranges over the whole module namespace, so
an imported non-underscore function counts as a discovered callable and
is selected as the entry point when it comes first in declaration order,
even though a function the candidate actually wrote appears later. -/
theorem imported_function_discovered (g pre post : List Binding)
    (f : Binding)
    (hg : g = pre ++ f :: post)
    (hns : ∀ x ∈ g, x.name ≠ "sort_array")
    (hf : f.isFunction = true) (hpriv : ("_".data).isPrefixOf f.name.data = false)
    (himp : f.fromImport = true)
    (hpre : ∀ x ∈ pre, (x.isFunction && !("_".data).isPrefixOf x.name.data) = false)
    (_hcand : ∃ w ∈ post, w.isFunction = true ∧ w.fromImport = false) :
    selectEntry g = EntryChoice.invoke f ∧ f.fromImport = true := by
  have hfind : g.find? (fun x => x.name == "sort_array") = none := by
    rw [List.find?_eq_none]
    intro x hx
    simpa using hns x hx
  have hfilt :
      g.filter (fun x => x.isFunction && !("_".data).isPrefixOf x.name.data) =
        f :: post.filter (fun x => x.isFunction && !("_".data).isPrefixOf x.name.data) := by
    subst hg
    exact filter_append_first _ _ _ _ hpre (by simp [hf, hpriv])
  exact ⟨by simp [selectEntry, hfind, hfilt], himp⟩

theorem imported_function_discovered_witness :
    selectEntry
        [⟨"join", true, true, "function", true⟩,
         ⟨"my_sort", true, true, "function", false⟩] =
      EntryChoice.invoke ⟨"join", true, true, "function", true⟩ :=
  (imported_function_discovered
      [⟨"join", true, true, "function", true⟩,
       ⟨"my_sort", true, true, "function", false⟩]
      [] [⟨"my_sort", true, true, "function", false⟩]
      ⟨"join", true, true, "function", true⟩
      rfl (by decide) rfl rfl rfl (by decide)
      ⟨⟨"my_sort", true, true, "function", false⟩, by decide, rfl, rfl⟩).1

/-- Every result `_run_single_test` returns normally carries a present
execution time: the pass/fail/error branches record either the parsed
duration field or the runner-measured elapsed time, and the timeout
branch records the configured timeout. -/
theorem runSingleTest_ok_time (timeout_seconds : ℚ) (sid : String)
    (tid : Nat) (obs : RunObs) (r : BotResult)
    (h : runSingleTest timeout_seconds sid tid obs = .ok r) :
    r.execution_time.isSome = true := by
  cases obs with
  | fault m => simp [runSingleTest] at h
  | timedOut a b =>
    simp only [runSingleTest, Except.ok.injEq] at h
    subst h
    rfl
  | completed so se t =>
    simp only [runSingleTest] at h
    iterate 5 all_goals try split at h
    all_goals first
      | (cases h; rfl)
      | simp at h

/-- A result of the per-test-case wrapper whose kind is pass carries a
present execution time (the catch path only ever produces error kinds,
and normal returns always carry a time). -/
theorem pass_has_time (timeout_seconds : ℚ) (sid : String) (tid : Nat)
    (obs : RunObs)
    (hp : (runSingleTestCaught timeout_seconds sid tid obs).success =
      "pass") :
    (runSingleTestCaught timeout_seconds sid tid obs).execution_time.isSome
      = true := by
  unfold runSingleTestCaught at hp ⊢
  cases hrun : runSingleTest timeout_seconds sid tid obs with
  | error e =>
    rw [hrun] at hp
    simp [caughtResult] at hp
  | ok r =>
    show r.execution_time.isSome = true
    exact runSingleTest_ok_time _ _ _ _ _ hrun

/-- C7 counterexample: the error result created when a per-test-case
fault is caught carries no execution duration at all, and a verdict
line's duration field is trusted verbatim, so a negative reported
duration is recorded as-is. -/
theorem outcome_duration_cex :
    ((evaluate_bot 30 "s" [⟨1, RunObs.fault "disk full"⟩]).results.all
        fun r => r.execution_time.isSome) = false ∧
    runSingleTest 30 "s" 1 (RunObs.completed "PASS,-3" "" 1) =
      .ok ⟨"s", 1, some (mkRat (-3) 1), "pass", none⟩ :=
  ⟨by decide, by decide⟩

/-- C7 amended: every result `_run_single_test` itself returns (Pass,
Fail, Error from the verdict line, or Timeout) carries a present
execution duration, while the error result created when a per-test-case
fault is caught carries none. -/
theorem outcome_duration_presence (timeout_seconds : ℚ) (sid : String)
    (tid : Nat) (obs : RunObs) (r : BotResult) (msg : String)
    (h : runSingleTest timeout_seconds sid tid obs = .ok r) :
    r.execution_time.isSome = true ∧
    (caughtResult sid tid msg).execution_time = none :=
  ⟨runSingleTest_ok_time timeout_seconds sid tid obs r h, rfl⟩

theorem outcome_duration_presence_witness :
    (⟨"s", 1, some 30, "timeout", some "Execution timed out"⟩ :
        BotResult).execution_time.isSome = true ∧
    (caughtResult "s" 1 "boom").execution_time = none :=
  outcome_duration_presence 30 "s" 1 (RunObs.timedOut "" "") _ "boom" rfl

/-- C8 counterexample: stdout whose candidate-printed text before the
verdict line itself begins with "PASS" still starts with PASS after
stripping, so the run is classified Pass (with the verdict line's
duration), not Error as the claim asserts for any prefixed text. -/
theorem stdout_prefix_cex :
    runSingleTest 30 "s" 1 (RunObs.completed "PASSWORD\nPASS,0.5" "" 1) =
      .ok ⟨"s", 1, some (mkRat 1 2), "pass", none⟩ ∧
    (runSingleTestCaught 30 "s" 1
        (RunObs.completed "PASSWORD\nPASS,0.5" "" 1)).success = "pass" :=
  ⟨by decide, by decide⟩

/-- C8 amended: the verdict is decided by the prefix of the whole
captured stdout, not by searching for the verdict line: whenever the
stripped stdout starts with neither PASS nor FAIL — the case whenever
candidate-printed text that does not itself begin with those tags
precedes the verdict line — the produced outcome is classified Error,
even if the candidate sorted the input correctly. -/
theorem stdout_prefix_decides (timeout_seconds : ℚ) (sid : String)
    (tid : Nat) (stdout stderr : String) (elapsed : ℚ)
    (hp : ("PASS".data).isPrefixOf (pyStrip stdout.data) = false)
    (hf : ("FAIL".data).isPrefixOf (pyStrip stdout.data) = false) :
    (runSingleTestCaught timeout_seconds sid tid
        (RunObs.completed stdout stderr elapsed)).success = "error" := by
  unfold runSingleTestCaught
  cases hrun : runSingleTest timeout_seconds sid tid
      (RunObs.completed stdout stderr elapsed) with
  | error e => simp [caughtResult]
  | ok r =>
    show r.success = "error"
    simp only [runSingleTest, hp, hf, Bool.false_eq_true, if_false] at hrun
    iterate 4 all_goals try split at hrun
    all_goals first
      | (cases hrun; rfl)
      | simp at hrun

theorem stdout_prefix_decides_witness :
    (runSingleTestCaught 30 "s" 1
        (RunObs.completed "debug\nPASS,0.5" "" 1)).success = "error" :=
  stdout_prefix_decides 30 "s" 1 "debug\nPASS,0.5" "" 1
    (by decide) (by decide)

/-- Splitting: `splitFirst` finds nothing when the separator is absent. -/
theorem splitFirst_of_not_mem {sep : Char} {a : List Char} (h : sep ∉ a) :
    splitFirst sep a = none := by
  induction a with
  | nil => rfl
  | cons c cs ih =>
    have hc : ¬c = sep := fun e => h (by simp [e])
    simp [splitFirst, hc, ih fun m => h (by simp [m])]

/-- Splitting: `splitFirst` splits exactly at the first separator occurrence. -/
theorem splitFirst_append {sep : Char} (a r : List Char) (h : sep ∉ a) :
    splitFirst sep (a ++ sep :: r) = some (a, r) := by
  induction a with
  | nil => simp [splitFirst]
  | cons c cs ih =>
    have hc : ¬c = sep := fun e => h (by simp [e])
    simp [splitFirst, hc, ih fun m => h (by simp [m])]

/-- On a line with at least two commas, `pySplit2` yields the part before
the first comma, the part between the first two commas, and everything
after the second comma — commas in the tail are not separators. -/
theorem pySplit2_append (a b m : List Char) (ha : ',' ∉ a) (hb : ',' ∉ b) :
    pySplit2 (a ++ ',' :: (b ++ ',' :: m)) = [a, b, m] := by
  unfold pySplit2
  rw [splitFirst_append a _ ha]
  simp only [splitFirst_append b m hb]

/-- Splitting without a separator: the accumulator-based splitter yields
the single field made of the accumulator followed by the rest. -/
theorem pySplitAllAux_no_comma (cs : List Char) (acc : List Char)
    (h : ',' ∉ cs) : pySplitAllAux cs acc = [acc.reverse ++ cs] := by
  induction cs generalizing acc with
  | nil => simp [pySplitAllAux]
  | cons c cs ih =>
    have hc : ¬c = ',' := fun e => h (by simp [e])
    simp [pySplitAllAux, hc, ih (c :: acc) fun m => h (by simp [m])]

/-- A line without a comma splits into the single field it is. -/
theorem pySplitAll_no_comma (cs : List Char) (h : ',' ∉ cs) :
    pySplitAll cs = [cs] := by
  simpa using pySplitAllAux_no_comma cs [] h

/-- A line without a comma splits (with maxsplit 2) into the single
field it is. -/
theorem pySplit2_no_comma (cs : List Char) (h : ',' ∉ cs) :
    pySplit2 cs = [cs] := by
  unfold pySplit2
  rw [splitFirst_of_not_mem h]

/-- C4 counterexample: on the captured stdout "PASS,abc" the duration
field fails numeric parsing and the parsing step raises (it does not
fall back to the runner-measured elapsed time of 1 while keeping kind
Pass); the orchestrator then records an Error outcome carrying the
ValueError description and no duration. -/
theorem duration_parse_failure_cex :
    runSingleTest 30 "s" 1 (RunObs.completed "PASS,abc" "" 1) =
      .error "could not convert string to float: \x27abc\x27" ∧
    (evaluate_bot 30 "s" [⟨1, RunObs.completed "PASS,abc" "" 1⟩]).results =
      [⟨"s", 1, none, "error",
        some "could not convert string to float: \x27abc\x27"⟩] :=
  ⟨by decide, by decide⟩

/-- C4 amended: for every captured stdout whose verdict line has a
duration field that fails numeric parsing — in the PASS branch and in
the FAIL and else (Error) branches alike — the verdict parsing step
raises the float conversion error; the orchestrator's per-test-case
catch converts it into an Error outcome carrying the exception
description and no duration.  When the duration field parses, its value
becomes the outcome's duration, and the runner-measured fallback
elapsed time is used only when the line contains no duration field at
all (no comma in the stripped stdout). -/
theorem duration_parse_failure_raises (timeout_seconds : ℚ) (sid : String)
    (tid : Nat) (stdout stderr : String) (elapsed : ℚ) :
    (∀ p0 p1 ps,
      ("PASS".data).isPrefixOf (pyStrip stdout.data) = true →
      pySplitAll (pyStrip stdout.data) = p0 :: p1 :: ps →
      (pyFloat? p1 = none →
        runSingleTest timeout_seconds sid tid
            (RunObs.completed stdout stderr elapsed) =
          .error (floatError p1) ∧
        runSingleTestCaught timeout_seconds sid tid
            (RunObs.completed stdout stderr elapsed) =
          caughtResult sid tid (floatError p1)) ∧
      (∀ q, pyFloat? p1 = some q →
        ∃ r, runSingleTest timeout_seconds sid tid
            (RunObs.completed stdout stderr elapsed) = .ok r ∧
          r.execution_time = some q)) ∧
    (∀ p0 p1,
      ("PASS".data).isPrefixOf (pyStrip stdout.data) = false →
      (pySplit2 (pyStrip stdout.data) = [p0, p1] ∨
       (∃ p2, pySplit2 (pyStrip stdout.data) = [p0, p1, p2])) →
      (pyFloat? p1 = none →
        runSingleTest timeout_seconds sid tid
            (RunObs.completed stdout stderr elapsed) =
          .error (floatError p1) ∧
        runSingleTestCaught timeout_seconds sid tid
            (RunObs.completed stdout stderr elapsed) =
          caughtResult sid tid (floatError p1)) ∧
      (∀ q, pyFloat? p1 = some q →
        ∃ r, runSingleTest timeout_seconds sid tid
            (RunObs.completed stdout stderr elapsed) = .ok r ∧
          r.execution_time = some q)) ∧
    (',' ∉ pyStrip stdout.data →
      ∃ r, runSingleTest timeout_seconds sid tid
          (RunObs.completed stdout stderr elapsed) = .ok r ∧
        r.execution_time = some elapsed) := by
  refine ⟨?_, ?_, ?_⟩
  · intro p0 p1 ps hpass hsplit
    constructor
    · intro hbad
      have h1 : runSingleTest timeout_seconds sid tid
          (RunObs.completed stdout stderr elapsed) =
            .error (floatError p1) := by
        simp only [runSingleTest, hpass, if_true, hsplit, hbad]
      exact ⟨h1, by unfold runSingleTestCaught; rw [h1]⟩
    · intro q hq
      refine ⟨{ submission_id := sid, test_case_id := tid,
                execution_time := some q, success := "pass" }, ?_, rfl⟩
      simp only [runSingleTest, hpass, if_true, hsplit, hq]
  · intro p0 p1 hnp hshape
    cases hf : ("FAIL".data).isPrefixOf (pyStrip stdout.data) with
    | false =>
      cases hshape with
      | inl h2 =>
        constructor
        · intro hbad
          have h1 : runSingleTest timeout_seconds sid tid
              (RunObs.completed stdout stderr elapsed) =
                .error (floatError p1) := by
            simp only [runSingleTest, hnp, hf, Bool.false_eq_true,
              if_false, h2, hbad]
          exact ⟨h1, by unfold runSingleTestCaught; rw [h1]⟩
        · intro q hq
          refine ⟨{ submission_id := sid, test_case_id := tid,
                    execution_time := some q, success := "error",
                    error_message := some stderr }, ?_, rfl⟩
          simp only [runSingleTest, hnp, hf, Bool.false_eq_true,
            if_false, h2, hq]
      | inr h3 =>
        obtain ⟨p2, h3⟩ := h3
        constructor
        · intro hbad
          have h1 : runSingleTest timeout_seconds sid tid
              (RunObs.completed stdout stderr elapsed) =
                .error (floatError p1) := by
            simp only [runSingleTest, hnp, hf, Bool.false_eq_true,
              if_false, h3, hbad]
          exact ⟨h1, by unfold runSingleTestCaught; rw [h1]⟩
        · intro q hq
          refine ⟨{ submission_id := sid, test_case_id := tid,
                    execution_time := some q, success := "error",
                    error_message := some (String.mk p2) }, ?_, rfl⟩
          simp only [runSingleTest, hnp, hf, Bool.false_eq_true,
            if_false, h3, hq]
    | true =>
      cases hshape with
      | inl h2 =>
        constructor
        · intro hbad
          have h1 : runSingleTest timeout_seconds sid tid
              (RunObs.completed stdout stderr elapsed) =
                .error (floatError p1) := by
            simp only [runSingleTest, hnp, Bool.false_eq_true, if_false,
              hf, if_true, h2, hbad]
          exact ⟨h1, by unfold runSingleTestCaught; rw [h1]⟩
        · intro q hq
          refine ⟨{ submission_id := sid, test_case_id := tid,
                    execution_time := some q, success := "fail",
                    error_message := some "Test failed" }, ?_, rfl⟩
          simp only [runSingleTest, hnp, Bool.false_eq_true, if_false,
            hf, if_true, h2, hq]
      | inr h3 =>
        obtain ⟨p2, h3⟩ := h3
        constructor
        · intro hbad
          have h1 : runSingleTest timeout_seconds sid tid
              (RunObs.completed stdout stderr elapsed) =
                .error (floatError p1) := by
            simp only [runSingleTest, hnp, Bool.false_eq_true, if_false,
              hf, if_true, h3, hbad]
          exact ⟨h1, by unfold runSingleTestCaught; rw [h1]⟩
        · intro q hq
          refine ⟨{ submission_id := sid, test_case_id := tid,
                    execution_time := some q, success := "fail",
                    error_message := some (String.mk p2) }, ?_, rfl⟩
          simp only [runSingleTest, hnp, Bool.false_eq_true, if_false,
            hf, if_true, h3, hq]
  · intro hnc
    have h1 : pySplitAll (pyStrip stdout.data) = [pyStrip stdout.data] :=
      pySplitAll_no_comma _ hnc
    have h2 : pySplit2 (pyStrip stdout.data) = [pyStrip stdout.data] :=
      pySplit2_no_comma _ hnc
    cases hp : ("PASS".data).isPrefixOf (pyStrip stdout.data) with
    | true =>
      refine ⟨{ submission_id := sid, test_case_id := tid,
                execution_time := some elapsed, success := "pass" },
              ?_, rfl⟩
      simp only [runSingleTest, hp, if_true, h1]
    | false =>
      cases hf : ("FAIL".data).isPrefixOf (pyStrip stdout.data) with
      | true =>
        refine ⟨{ submission_id := sid, test_case_id := tid,
                  execution_time := some elapsed, success := "fail",
                  error_message := some "Test failed" }, ?_, rfl⟩
        simp only [runSingleTest, hp, Bool.false_eq_true, if_false, hf,
          if_true, h2]
      | false =>
        refine ⟨{ submission_id := sid, test_case_id := tid,
                  execution_time := some elapsed, success := "error",
                  error_message := some stderr }, ?_, rfl⟩
        simp only [runSingleTest, hp, hf, Bool.false_eq_true, if_false,
          h2]

theorem duration_parse_failure_raises_witness :
    runSingleTest 30 "s" 1 (RunObs.completed "PASS,abc" "" 1) =
      .error (floatError "abc".data) ∧
    runSingleTest 30 "s" 2 (RunObs.completed "FAIL,abc,oops" "" 1) =
      .error (floatError "abc".data) ∧
    (∃ r, runSingleTest 30 "s" 3 (RunObs.completed "ERROR no comma" "x" 7) =
        .ok r ∧ r.execution_time = some 7) :=
  ⟨(((duration_parse_failure_raises 30 "s" 1 "PASS,abc" "" 1).1
      "PASS".data "abc".data [] (by decide) (by decide)).1 (by decide)).1,
   (((duration_parse_failure_raises 30 "s" 2 "FAIL,abc,oops" "" 1).2.1
      "FAIL".data "abc".data (by decide)
      (Or.inr ⟨"oops".data, by decide⟩)).1 (by decide)).1,
   (duration_parse_failure_raises 30 "s" 3 "ERROR no comma" "x" 7).2.2
      (by decide)⟩

/-- C6: for a FAIL verdict line, and likewise for any line classified
Error, only the first two commas are structural separators: the recorded
diagnostic message is everything after the second comma, so a message
containing commas is preserved intact. -/
theorem verdict_message_after_second_comma (timeout_seconds : ℚ)
    (sid : String) (tid : Nat) (stdout stderr : String) (elapsed q : ℚ)
    (a b m : List Char)
    (hstrip : pyStrip stdout.data = a ++ ',' :: (b ++ ',' :: m))
    (ha : ',' ∉ a) (hb : ',' ∉ b)
    (hq : pyFloat? b = some q) :
    (("FAIL".data).isPrefixOf a = true →
      runSingleTest timeout_seconds sid tid
          (RunObs.completed stdout stderr elapsed) =
        .ok ⟨sid, tid, some q, "fail", some (String.mk m)⟩) ∧
    (("PASS".data).isPrefixOf (pyStrip stdout.data) = false →
     ("FAIL".data).isPrefixOf (pyStrip stdout.data) = false →
      runSingleTest timeout_seconds sid tid
          (RunObs.completed stdout stderr elapsed) =
        .ok ⟨sid, tid, some q, "error", some (String.mk m)⟩) := by
  have hsp : pySplit2 (pyStrip stdout.data) = [a, b, m] := by
    rw [hstrip]
    exact pySplit2_append _ _ _ ha hb
  constructor
  · intro hfa
    rw [ List.isPrefixOf_iff_prefix] at hfa
    obtain ⟨t, rfl⟩ := hfa
    have hstrip2 : pyStrip stdout.data =
        'F' :: 'A' :: 'I' :: 'L' :: (t ++ ',' :: (b ++ ',' :: m)) := by
      simpa using hstrip
    have hpw : ("PASS".data).isPrefixOf (pyStrip stdout.data) = false := by
      rw [hstrip2]; rfl
    have hfw : ("FAIL".data).isPrefixOf (pyStrip stdout.data) = true := by
      rw [hstrip2]
      simp [List.isPrefixOf]
    simp only [runSingleTest, hpw, Bool.false_eq_true, if_false, hfw,
      if_true, hsp, hq]
  · intro hpw hfw
    simp only [runSingleTest, hpw, hfw, Bool.false_eq_true, if_false,
      hsp, hq]

theorem verdict_message_after_second_comma_witness :
    runSingleTest 30 "s" 1 (RunObs.completed "FAIL,0.5,a,b,c" "" 1) =
      .ok ⟨"s", 1, some (mkRat 1 2), "fail", some "a,b,c"⟩ ∧
    runSingleTest 30 "s" 2 (RunObs.completed "ERROR,0.5,x, y, z" "" 1) =
      .ok ⟨"s", 2, some (mkRat 1 2), "error", some "x, y, z"⟩ :=
  ⟨(verdict_message_after_second_comma 30 "s" 1 "FAIL,0.5,a,b,c" "" 1
      (mkRat 1 2) "FAIL".data "0.5".data "a,b,c".data
      (by decide) (by decide) (by decide) (by decide)).1 (by decide),
   (verdict_message_after_second_comma 30 "s" 2 "ERROR,0.5,x, y, z" "" 1
      (mkRat 1 2) "ERROR".data "0.5".data "x, y, z".data
      (by decide) (by decide) (by decide) (by decide)).2
      (by decide) (by decide)⟩

/-- C2: every pass result of a completed evaluation carries an execution
time, and the total score equals the arithmetic mean of the execution
times of exactly the results whose kind is pass — or 0 when there are no
pass results. -/
theorem total_score_mean (timeout_seconds : ℚ) (sid : String)
    (tests : List TestRun) :
    (∀ r ∈ (evaluate_bot timeout_seconds sid tests).results.filter
        (fun r => r.success == "pass"),
      r.execution_time.isSome = true) ∧
    (evaluate_bot timeout_seconds sid tests).total_score =
      (if ((evaluate_bot timeout_seconds sid tests).results.filter
            (fun r => r.success == "pass")).isEmpty then 0
       else (((evaluate_bot timeout_seconds sid tests).results.filter
            (fun r => r.success == "pass")).map
              fun r => r.execution_time.getD 0).sum /
         ((evaluate_bot timeout_seconds sid tests).results.filter
            (fun r => r.success == "pass")).length) := by
  have hkey : ∀ r ∈ (evaluate_bot timeout_seconds sid tests).results,
      r.success = "pass" → r.execution_time.isSome = true := by
    intro r hr hp
    simp only [evaluate_bot, List.mem_map] at hr
    obtain ⟨tr, _, rfl⟩ := hr
    exact pass_has_time _ _ _ _ hp
  have hfe : (evaluate_bot timeout_seconds sid tests).results.filter
        (fun r => r.success == "pass" && r.execution_time.isSome) =
      (evaluate_bot timeout_seconds sid tests).results.filter
        (fun r => r.success == "pass") := by
    apply List.filter_congr
    intro r hr
    cases hq : (r.success == "pass") with
    | false => simp [hq]
    | true =>
      have ht := hkey r hr (by simpa using hq)
      simp [hq, ht]
  constructor
  · intro r hr
    rw [List.mem_filter] at hr
    exact hkey r hr.1 (by simpa using hr.2)
  · simp only [evaluate_bot] at hfe ⊢
    rw [hfe]

theorem total_score_mean_witness :
    (⟨"s", 1, some (mkRat 2 1), "pass", none⟩ :
        BotResult).execution_time.isSome = true :=
  (total_score_mean 30 "s" [⟨1, RunObs.completed "PASS,2" "" 9⟩]).1
    ⟨"s", 1, some (mkRat 2 1), "pass", none⟩ (by decide)

end SortBot
